import Mathlib

/-!
Verification of the `Dat` date-utility library.

The library operates on JavaScript `Date` values.  A `Date` is modelled by its
timestamp: the (unbounded) number of milliseconds since the Unix epoch, an
`Int`.  Field getters and setters (`getFullYear`, `setDate`, ...) follow the
ECMAScript specification of the proleptic Gregorian calendar, with local time
taken equal to UTC (no time-zone offset, no DST).  JavaScript numbers are
idealised as exact rationals (`ℚ`) where division occurs.

The calendar conversion from day numbers to civil (year, month, day) triples is
implemented by exact integer-division formulas over the 146097-day Gregorian
era and proved to be the two-sided inverse of the day-number reconstruction
used by the setters, so all field manipulations below are internally
consistent.
-/

/-! ## Civil calendar: day number to (year, month, day) and back -/

/-- Century-of-era of a day-of-era: the first century of the 400-year cycle has
36525 days, the remaining three have 36524. -/
def coeF (doe : Nat) : Nat := doe / 36524 - doe / 146096

/-- Day within the century-of-era. -/
def docF (doe : Nat) : Nat := doe - 36524 * coeF doe

/-- Quadrennium within the century (March-based years, leap day last). -/
def qocF (doe : Nat) : Nat := docF doe / 1461

/-- Day within the quadrennium. -/
def doqF (doe : Nat) : Nat := docF doe - 1461 * qocF doe

/-- Year within the quadrennium (the long year comes last). -/
def yiqF (doe : Nat) : Nat := doqF doe / 365 - doqF doe / 1460

/-- Day of the March-based year. -/
def doyF (doe : Nat) : Nat := doqF doe - 365 * yiqF doe

/-- Year of the era, in March-based counting. -/
def yoeF (doe : Nat) : Nat := 100 * coeF doe + 4 * qocF doe + yiqF doe

/-- March-based month index (0 = March ... 11 = February). -/
def mpF (doe : Nat) : Nat := (5 * doyF doe + 2) / 153

/-- Civil day of month, in 1..31. -/
def dF (doe : Nat) : Nat := doyF doe - (153 * mpF doe + 2) / 5 + 1

/-- Civil month, in 1..12. -/
def mF (doe : Nat) : Nat := if mpF doe < 10 then mpF doe + 3 else mpF doe - 9

/-- Civil year within the era (January-based), in 0..400. -/
def yF (doe : Nat) : Nat := if mF doe ≤ 2 then yoeF doe + 1 else yoeF doe

/-- Civil (year, month 1..12, day 1..31) of a day-of-era in 0..146096. -/
def civilOfDoe (doe : Nat) : Nat × Nat × Nat := (yF doe, mF doe, dF doe)

theorem coeF_spec (doe : Nat) (h : doe < 146097) :
    coeF doe ≤ 3 ∧ 36524 * coeF doe ≤ doe ∧ docF doe ≤ 36524 ∧
    docF doe = doe - 36524 * coeF doe := by
  unfold docF coeF
  omega

theorem qocF_spec (doe : Nat) (h : docF doe ≤ 36524) :
    qocF doe ≤ 24 ∧ 1461 * qocF doe ≤ docF doe ∧ doqF doe ≤ 1460 ∧
    doqF doe = docF doe - 1461 * qocF doe := by
  unfold doqF qocF
  omega

theorem yiqF_spec (doe : Nat) (h : doqF doe ≤ 1460) :
    yiqF doe ≤ 3 ∧ 365 * yiqF doe ≤ doqF doe ∧ doyF doe ≤ 365 ∧
    doyF doe = doqF doe - 365 * yiqF doe := by
  unfold doyF yiqF
  omega

theorem mpF_spec (doe : Nat) (h : doyF doe ≤ 365) :
    mpF doe ≤ 11 ∧ (153 * mpF doe + 2) / 5 ≤ doyF doe ∧
    doyF doe < (153 * (mpF doe + 1) + 2) / 5 := by
  unfold mpF
  omega

/-- Field bounds of `civilOfDoe` together with the reconstruction identity:
the year-start plus month-start plus day-of-month recovers the day-of-era. -/
theorem civilOfDoe_spec (doe : Nat) (h : doe < 146097) :
    1 ≤ mF doe ∧ mF doe ≤ 12 ∧ 1 ≤ dF doe ∧ dF doe ≤ 31 ∧ yF doe ≤ 400 ∧
    (mF doe ≤ 2 → 1 ≤ yF doe) ∧
    (if mF doe ≤ 2 then yF doe - 1 else yF doe) ≤ 399 ∧
    365 * (if mF doe ≤ 2 then yF doe - 1 else yF doe)
      + (if mF doe ≤ 2 then yF doe - 1 else yF doe) / 4
      - (if mF doe ≤ 2 then yF doe - 1 else yF doe) / 100
      + (153 * (if 2 < mF doe then mF doe - 3 else mF doe + 9) + 2) / 5
      + dF doe - 1 = doe := by
  have h1 := coeF_spec doe h
  have h2 := qocF_spec doe (by omega)
  have h3 := yiqF_spec doe (by omega)
  have h4 := mpF_spec doe (by omega)
  have hyoe : yoeF doe = 100 * coeF doe + 4 * qocF doe + yiqF doe := rfl
  have hd : dF doe = doyF doe - (153 * mpF doe + 2) / 5 + 1 := rfl
  have hm : mF doe = if mpF doe < 10 then mpF doe + 3 else mpF doe - 9 := rfl
  have hy : yF doe = if mF doe ≤ 2 then yoeF doe + 1 else yoeF doe := rfl
  have hj : yoeF doe / 4 = 25 * coeF doe + qocF doe := by
    rw [hyoe]; omega
  have hk : yoeF doe / 100 = coeF doe := by
    rw [hyoe]; omega
  split_ifs at hm hy ⊢ <;> rw [hm, hy] <;> (try simp only [Nat.add_sub_cancel]) <;> omega

/-- Day number (days since 1970-01-01) of the first day of a civil month.
`y` is the civil year, `jsm` the JavaScript month index in 0..11. -/
def firstOfMonthDay (y jsm : Int) : Int :=
  let m := jsm + 1
  let yAdj := if m ≤ 2 then y - 1 else y
  let era := yAdj / 400
  let yoe := (yAdj % 400).toNat
  let mp := (if 2 < m then m - 3 else m + 9).toNat
  let doe := 365 * yoe + yoe / 4 - yoe / 100 + (153 * mp + 2) / 5
  era * 146097 + (doe : Int) - 719468

/-- Civil (year, month 1..12, day 1..31) of an arbitrary day number. -/
def civilFromDays (z : Int) : Int × Nat × Nat :=
  let zp := z + 719468
  let era := zp / 146097
  let doe := (zp % 146097).toNat
  let c := civilOfDoe doe
  (era * 400 + c.1, c.2.1, c.2.2)

theorem firstOfMonthDay_shift (y jsm k : Int) :
    firstOfMonthDay (y + 400 * k) jsm = firstOfMonthDay y jsm + 146097 * k := by
  unfold firstOfMonthDay
  simp only []
  have h1 : ∀ a : Int, (a + 400 * k) / 400 = a / 400 + k := by
    intro a; rw [mul_comm 400 k, Int.add_mul_ediv_right a k (by norm_num)]
  have h2 : ∀ a : Int, (a + 400 * k) % 400 = a % 400 := by
    intro a; exact Int.add_mul_emod_self_left a 400 k
  split_ifs <;> (try rw [show y + 400 * k - 1 = (y - 1) + 400 * k by ring]) <;>
    rw [h1, h2] <;> ring

theorem firstOfMonthDay_nat (doe : Nat) (h : doe < 146097) :
    firstOfMonthDay ((yF doe : Int)) ((mF doe : Int) - 1) + (dF doe : Int) - 1
      = (doe : Int) - 719468 := by
  obtain ⟨hm1, hm2, hd1, hd2, hy1, hy2, hA1, hA2⟩ := civilOfDoe_spec doe h
  unfold firstOfMonthDay
  simp only []
  rw [show (mF doe : Int) - 1 + 1 = (mF doe : Int) by ring]
  by_cases hc : mF doe ≤ 2
  · simp only [if_pos hc, if_neg (show ¬ 2 < mF doe by omega)] at hA1 hA2
    rw [if_pos (show (mF doe : Int) ≤ 2 by exact_mod_cast hc),
        if_neg (show ¬ (2 : Int) < (mF doe : Int) by exact_mod_cast (by omega : ¬ 2 < mF doe))]
    have h1y := hy2 hc
    rw [show (yF doe : Int) - 1 = ((yF doe - 1 : Nat) : Int) by omega]
    rw [Int.ediv_eq_zero_of_lt (by positivity) (by exact_mod_cast Nat.lt_succ_of_le hA1)]
    rw [Int.emod_eq_of_lt (by positivity) (by exact_mod_cast Nat.lt_succ_of_le hA1)]
    rw [show ((yF doe - 1 : Nat) : Int).toNat = yF doe - 1 by omega]
    rw [show ((mF doe : Int) + 9).toNat = mF doe + 9 by omega]
    omega
  · simp only [if_neg hc, if_pos (show 2 < mF doe by omega)] at hA1 hA2
    rw [if_neg (show ¬ (mF doe : Int) ≤ 2 by exact_mod_cast hc),
        if_pos (show (2 : Int) < (mF doe : Int) by exact_mod_cast (by omega : 2 < mF doe))]
    rw [Int.ediv_eq_zero_of_lt (by positivity) (by exact_mod_cast Nat.lt_succ_of_le hA1)]
    rw [Int.emod_eq_of_lt (by positivity) (by exact_mod_cast Nat.lt_succ_of_le hA1)]
    rw [show ((yF doe : Nat) : Int).toNat = yF doe by omega]
    rw [show ((mF doe : Int) - 3).toNat = mF doe - 3 by omega]
    omega

/-- The reconstruction `firstOfMonthDay` is a left inverse of `civilFromDays`:
rebuilding the day number from the extracted civil fields gives the day back. -/
theorem civilFromDays_inverse (z : Int) :
    firstOfMonthDay (civilFromDays z).1 (((civilFromDays z).2.1 : Int) - 1)
      + ((civilFromDays z).2.2 : Int) - 1 = z := by
  have hmod : 0 ≤ (z + 719468) % 146097 := Int.emod_nonneg _ (by norm_num)
  have hlt : (z + 719468) % 146097 < 146097 := Int.emod_lt_of_pos _ (by norm_num)
  have hdlt : ((z + 719468) % 146097).toNat < 146097 := by omega
  have hcfd : civilFromDays z =
      ((z + 719468) / 146097 * 400 + yF ((z + 719468) % 146097).toNat,
       mF ((z + 719468) % 146097).toNat, dF ((z + 719468) % 146097).toNat) := rfl
  rw [hcfd]
  dsimp only
  rw [show ((z + 719468) / 146097 * 400 + (yF ((z + 719468) % 146097).toNat : Int))
        = (yF ((z + 719468) % 146097).toNat : Int) + 400 * ((z + 719468) / 146097) by ring]
  rw [firstOfMonthDay_shift]
  have hnat := firstOfMonthDay_nat ((z + 719468) % 146097).toNat hdlt
  have hdm : 146097 * ((z + 719468) / 146097) + (z + 719468) % 146097 = z + 719468 :=
    Int.ediv_add_emod _ _
  omega

/-- Bounds for the civil fields extracted from any day number. -/
theorem civilFromDays_bounds (z : Int) :
    1 ≤ (civilFromDays z).2.1 ∧ (civilFromDays z).2.1 ≤ 12 ∧
    1 ≤ (civilFromDays z).2.2 ∧ (civilFromDays z).2.2 ≤ 31 := by
  have hmod : 0 ≤ (z + 719468) % 146097 := Int.emod_nonneg _ (by norm_num)
  have hlt : (z + 719468) % 146097 < 146097 := Int.emod_lt_of_pos _ (by norm_num)
  have hdlt : ((z + 719468) % 146097).toNat < 146097 := by omega
  obtain ⟨hm1, hm2, hd1, hd2, _⟩ := civilOfDoe_spec _ hdlt
  exact ⟨hm1, hm2, hd1, hd2⟩

/-! ## The JavaScript `Date` model

A `Date` object is identified with its timestamp in milliseconds since the
epoch.  Getters and setters follow ECMAScript (`HourFromTime`, `MakeDay`,
`MakeTime`, `MakeDate`), with local time equal to UTC. -/

/-- ECMAScript `Day(t)`: the day number containing timestamp `t`. -/
def dayNumber (t : Int) : Int := t / 86400000

/-- Millisecond offset of `t` within its day. -/
def msOfDay (t : Int) : Int := t % 86400000

/-- ECMAScript `HourFromTime`. -/
def getHours (t : Int) : Int := (t / 3600000) % 24

/-- ECMAScript `MinFromTime`. -/
def getMinutes (t : Int) : Int := (t / 60000) % 60

/-- ECMAScript `SecFromTime`. -/
def getSeconds (t : Int) : Int := (t / 1000) % 60

/-- ECMAScript `msFromTime`. -/
def getMilliseconds (t : Int) : Int := t % 1000

/-- ECMAScript `YearFromTime` (Date.prototype.getFullYear). -/
def getFullYear (t : Int) : Int := (civilFromDays (dayNumber t)).1

/-- ECMAScript `MonthFromTime` (Date.prototype.getMonth), in 0..11. -/
def getMonth (t : Int) : Int := ((civilFromDays (dayNumber t)).2.1 : Int) - 1

/-- ECMAScript `DateFromTime` (Date.prototype.getDate), in 1..31. -/
def getDate (t : Int) : Int := ((civilFromDays (dayNumber t)).2.2 : Int)

/-- ECMAScript `WeekDay` (Date.prototype.getDay): 0 = Sunday ... 6 = Saturday. -/
def getDay (t : Int) : Int := (dayNumber t + 4) % 7

/-- ECMAScript `MakeDay(y, m, date)`: day number of the given civil date, with
month overflow normalised into the year and day overflow rolling over. -/
def makeDay (y m date : Int) : Int :=
  let ym := y + m / 12
  let mn := m % 12
  firstOfMonthDay ym mn + date - 1

/-- ECMAScript `MakeDate`. -/
def makeDate (day time : Int) : Int := day * 86400000 + time

/-- ECMAScript `MakeTime`. -/
def makeTime (h m s milli : Int) : Int := h * 3600000 + m * 60000 + s * 1000 + milli

/-- Date.prototype.setFullYear (year argument only). -/
def setFullYear (t y : Int) : Int :=
  makeDate (makeDay y (getMonth t) (getDate t)) (msOfDay t)

/-- Date.prototype.setMonth (month argument only). -/
def setMonth (t m : Int) : Int :=
  makeDate (makeDay (getFullYear t) m (getDate t)) (msOfDay t)

/-- Date.prototype.setDate. -/
def setDate (t d : Int) : Int :=
  makeDate (makeDay (getFullYear t) (getMonth t) d) (msOfDay t)

/-- Date.prototype.setHours (hours argument only). -/
def setHours (t h : Int) : Int :=
  makeDate (dayNumber t) (makeTime h (getMinutes t) (getSeconds t) (getMilliseconds t))

/-- Date.prototype.setMinutes (minutes argument only). -/
def setMinutes (t m : Int) : Int :=
  makeDate (dayNumber t) (makeTime (getHours t) m (getSeconds t) (getMilliseconds t))

/-- Date.prototype.setSeconds (seconds argument only). -/
def setSeconds (t s : Int) : Int :=
  makeDate (dayNumber t) (makeTime (getHours t) (getMinutes t) s (getMilliseconds t))

/-- The time-of-day fields decompose the timestamp exactly. -/
theorem time_decomposition (t : Int) :
    dayNumber t * 86400000 + getHours t * 3600000 + getMinutes t * 60000
      + getSeconds t * 1000 + getMilliseconds t = t := by
  unfold dayNumber getHours getMinutes getSeconds getMilliseconds
  omega

theorem getMonth_bounds (t : Int) : 0 ≤ getMonth t ∧ getMonth t ≤ 11 := by
  obtain ⟨h1, h2, _, _⟩ := civilFromDays_bounds (dayNumber t)
  unfold getMonth
  omega

theorem getDate_bounds (t : Int) : 1 ≤ getDate t ∧ getDate t ≤ 31 := by
  obtain ⟨_, _, h3, h4⟩ := civilFromDays_bounds (dayNumber t)
  unfold getDate
  omega

theorem getDay_bounds (t : Int) : 0 ≤ getDay t ∧ getDay t ≤ 6 := by
  unfold getDay
  omega

/-- Rebuilding the day number of a timestamp from its own civil fields is the
identity (`MakeDay` inverts the getters). -/
theorem makeDay_getters (t : Int) :
    makeDay (getFullYear t) (getMonth t) (getDate t) = dayNumber t := by
  obtain ⟨hm0, hm11⟩ := getMonth_bounds t
  unfold makeDay
  simp only []
  rw [Int.ediv_eq_zero_of_lt hm0 (by omega), Int.emod_eq_of_lt hm0 (by omega)]
  rw [add_zero]
  exact civilFromDays_inverse (dayNumber t)

/-- `setDate` shifts the timestamp by whole days relative to the current
day-of-month. -/
theorem setDate_delta (t d : Int) :
    setDate t d = t + (d - getDate t) * 86400000 := by
  obtain ⟨hm0, hm11⟩ := getMonth_bounds t
  have hmk : makeDay (getFullYear t) (getMonth t) d
      = dayNumber t + d - getDate t := by
    unfold makeDay
    simp only []
    rw [Int.ediv_eq_zero_of_lt hm0 (by omega), Int.emod_eq_of_lt hm0 (by omega)]
    rw [add_zero]
    have h1 := civilFromDays_inverse (dayNumber t)
    unfold getDate
    unfold getFullYear getMonth
    omega
  unfold setDate makeDate
  rw [hmk]
  have h2 : dayNumber t * 86400000 + msOfDay t = t := by
    unfold dayNumber msOfDay; omega
  omega

theorem setSeconds_delta (t s : Int) :
    setSeconds t s = t + (s - getSeconds t) * 1000 := by
  have h := time_decomposition t
  unfold setSeconds makeDate makeTime
  omega

theorem setMinutes_delta (t m : Int) :
    setMinutes t m = t + (m - getMinutes t) * 60000 := by
  have h := time_decomposition t
  unfold setMinutes makeDate makeTime
  omega

theorem setHours_delta (t h : Int) :
    setHours t h = t + (h - getHours t) * 3600000 := by
  have hd := time_decomposition t
  unfold setHours makeDate makeTime
  omega

/-! ## The `Dat` utility surface

Translations of the static methods of the `Dat` class.  Durations are computed
in `ℚ`; `toFixed(2)` followed by `Number(...)` is modelled by exact rounding to
two decimals.  Functions that can `throw` return `Except String`. -/

/-- JavaScript `Math.round`: round half toward positive infinity. -/
def jsMathRound (q : ℚ) : Int := ⌊q + 1 / 2⌋

/-- Composition of `Number((...).toFixed(2))`: round to two decimal places,
ties away from the smaller value (ECMAScript picks the larger candidate). -/
def jsToFixed2 (q : ℚ) : ℚ := (⌊100 * q + 1 / 2⌋ : ℚ) / 100

/-- Dat.secondsBetween. -/
def secondsBetween (firstDate secondDate : Int) : ℚ :=
  |((secondDate - firstDate : Int) : ℚ) / 1000|

/-- Dat.minutesBetween. -/
def minutesBetween (firstDate secondDate : Int) : ℚ :=
  |((secondDate - firstDate : Int) : ℚ) / (60 * 1000)|

/-- Dat.hoursBetween. -/
def hoursBetween (firstDate secondDate : Int) : ℚ :=
  |((secondDate - firstDate : Int) : ℚ) / (60 * 60 * 1000)|

/-- Dat.daysBetween. -/
def daysBetween (firstDate secondDate : Int) : ℚ :=
  |((secondDate - firstDate : Int) : ℚ) / (24 * 60 * 60 * 1000)|

/-- Dat.weeksBetween: rounds the week quotient to the nearest integer before
taking the absolute value. -/
def weeksBetween (firstDate secondDate : Int) : ℚ :=
  |((jsMathRound (((secondDate - firstDate : Int) : ℚ) / (7 * 24 * 60 * 60 * 1000)) : Int) : ℚ)|

/-- Dat.monthsBetween: calendar year/month fields only. -/
def monthsBetween (firstDate secondDate : Int) : ℚ :=
  |(((getFullYear secondDate - getFullYear firstDate) * 12
      + (getMonth secondDate - getMonth firstDate) : Int) : ℚ)|

/-- Dat.yearsBetween: calendar year fields only. -/
def yearsBetween (firstDate secondDate : Int) : ℚ :=
  |((getFullYear secondDate - getFullYear firstDate : Int) : ℚ)|

/-- Dat.unitCalculators: the unit-dispatch table. -/
def unitCalculators : List (String × (Int → Int → ℚ)) :=
  [("second", secondsBetween), ("minute", minutesBetween), ("hour", hoursBetween),
   ("day", daysBetween), ("week", weeksBetween), ("month", monthsBetween),
   ("year", yearsBetween)]

/-- Dat.calculateDuration: dispatch on the unit, then round to two decimals. -/
def calculateDuration (firstDate secondDate : Int) (unit : String) : Except String ℚ :=
  match unitCalculators.lookup unit with
  | none => Except.error ("Unknown unit: " ++ unit)
  | some calculator => Except.ok (jsToFixed2 (calculator firstDate secondDate))

/-- Dat.addSeconds. -/
def addSeconds (date seconds : Int) : Int := setSeconds date (getSeconds date + seconds)

/-- Dat.addMinutes. -/
def addMinutes (date minutes : Int) : Int := setMinutes date (getMinutes date + minutes)

/-- Dat.addHours. -/
def addHours (date hours : Int) : Int := setHours date (getHours date + hours)

/-- Dat.addDays. -/
def addDays (date days : Int) : Int := setDate date (getDate date + days)

/-- Dat.addWeeks: raw millisecond arithmetic, no field mutation. -/
def addWeeks (date weeks : Int) : Int := date + weeks * (7 * 24 * 60 * 60 * 1000)

/-- Dat.addMonths. -/
def addMonths (date months : Int) : Int := setMonth date (getMonth date + months)

/-- Dat.addYears. -/
def addYears (date years : Int) : Int := setFullYear date (getFullYear date + years)

/-- Dat.subtractSeconds. -/
def subtractSeconds (date seconds : Int) : Int := addSeconds date (-seconds)

/-- Dat.subtractMinutes. -/
def subtractMinutes (date minutes : Int) : Int := addMinutes date (-minutes)

/-- Dat.subtractHours. -/
def subtractHours (date hours : Int) : Int := addHours date (-hours)

/-- Dat.subtractDays. -/
def subtractDays (date days : Int) : Int := addDays date (-days)

/-- Dat.subtractWeeks. -/
def subtractWeeks (date weeks : Int) : Int := addWeeks date (-weeks)

/-- Dat.subtractMonths. -/
def subtractMonths (date months : Int) : Int := addMonths date (-months)

/-- Dat.subtractYears. -/
def subtractYears (date years : Int) : Int := addYears date (-years)

/-- The `firstDayOfWeek` closure used by the `week` case of `hasSame`,
`hasBefore` and `hasAfter`.  `date.setDate(diff)` mutates the argument, so the
result is the pair (final state of the argument Date, timestamp of the
returned Date). -/
def firstDayOfWeek (date : Int) : Int × Int :=
  let dayOfWeek := if getDay date = 0 then 7 else getDay date
  if dayOfWeek = 1 then (date, date)
  else
    let diff := getDate date - dayOfWeek + 1
    let u := setDate date diff
    (u, u)

/-- Dat.hasSame in state-passing form: the result triple is (returned Boolean,
final state of `firstDate`, final state of `secondDate`). -/
def hasSameS (firstDate secondDate : Int) (unit : String) :
    Except String (Bool × Int × Int) :=
  if unit = "year" then
    Except.ok (decide (getFullYear firstDate = getFullYear secondDate), firstDate, secondDate)
  else if unit = "month" then
    Except.ok (decide (getMonth firstDate = getMonth secondDate), firstDate, secondDate)
  else if unit = "day" then
    Except.ok (decide (getDate firstDate = getDate secondDate), firstDate, secondDate)
  else if unit = "hour" then
    Except.ok (decide (getHours firstDate = getHours secondDate), firstDate, secondDate)
  else if unit = "minute" then
    Except.ok (decide (getMinutes firstDate = getMinutes secondDate), firstDate, secondDate)
  else if unit = "second" then
    Except.ok (decide (getSeconds firstDate = getSeconds secondDate), firstDate, secondDate)
  else if unit = "week" then
    let r1 := firstDayOfWeek firstDate
    let r2 := firstDayOfWeek secondDate
    Except.ok (decide (r1.2 = r2.2), r1.1, r2.1)
  else Except.error ("Invalid unit: " ++ unit)

/-- Dat.hasBefore in state-passing form. -/
def hasBeforeS (firstDate secondDate : Int) (unit : String) :
    Except String (Bool × Int × Int) :=
  if unit = "year" then
    Except.ok (decide (getFullYear firstDate < getFullYear secondDate), firstDate, secondDate)
  else if unit = "month" then
    Except.ok (decide (getMonth firstDate < getMonth secondDate), firstDate, secondDate)
  else if unit = "day" then
    Except.ok (decide (getDate firstDate < getDate secondDate), firstDate, secondDate)
  else if unit = "hour" then
    Except.ok (decide (getHours firstDate < getHours secondDate), firstDate, secondDate)
  else if unit = "minute" then
    Except.ok (decide (getMinutes firstDate < getMinutes secondDate), firstDate, secondDate)
  else if unit = "second" then
    Except.ok (decide (getSeconds firstDate < getSeconds secondDate), firstDate, secondDate)
  else if unit = "week" then
    let r1 := firstDayOfWeek firstDate
    let r2 := firstDayOfWeek secondDate
    Except.ok (decide (r1.2 < r2.2), r1.1, r2.1)
  else Except.error ("Invalid unit: " ++ unit)

/-- Dat.hasAfter in state-passing form. -/
def hasAfterS (firstDate secondDate : Int) (unit : String) :
    Except String (Bool × Int × Int) :=
  if unit = "year" then
    Except.ok (decide (getFullYear secondDate < getFullYear firstDate), firstDate, secondDate)
  else if unit = "month" then
    Except.ok (decide (getMonth secondDate < getMonth firstDate), firstDate, secondDate)
  else if unit = "day" then
    Except.ok (decide (getDate secondDate < getDate firstDate), firstDate, secondDate)
  else if unit = "hour" then
    Except.ok (decide (getHours secondDate < getHours firstDate), firstDate, secondDate)
  else if unit = "minute" then
    Except.ok (decide (getMinutes secondDate < getMinutes firstDate), firstDate, secondDate)
  else if unit = "second" then
    Except.ok (decide (getSeconds secondDate < getSeconds firstDate), firstDate, secondDate)
  else if unit = "week" then
    let r1 := firstDayOfWeek firstDate
    let r2 := firstDayOfWeek secondDate
    Except.ok (decide (r2.2 < r1.2), r1.1, r2.1)
  else Except.error ("Invalid unit: " ++ unit)

/-! ## Helper lemmas about the operations -/

theorem addSeconds_delta (t n : Int) : addSeconds t n = t + n * 1000 := by
  unfold addSeconds
  rw [setSeconds_delta]
  ring

theorem addMinutes_delta (t n : Int) : addMinutes t n = t + n * 60000 := by
  unfold addMinutes
  rw [setMinutes_delta]
  ring

theorem addHours_delta (t n : Int) : addHours t n = t + n * 3600000 := by
  unfold addHours
  rw [setHours_delta]
  ring

theorem addDays_delta (t n : Int) : addDays t n = t + n * 86400000 := by
  unfold addDays
  rw [setDate_delta]
  ring

/-- ISO day-of-week computed in the week branches: Monday = 1 ... Sunday = 7. -/
def isoDow (t : Int) : Int := if getDay t = 0 then 7 else getDay t

/-- Timestamp produced by shifting `t` back to the Monday that starts its
ISO week, keeping the time of day. -/
def startOfWeekInstant (t : Int) : Int := t - (isoDow t - 1) * 86400000

/-- Day number of the Monday starting the ISO week containing `t`. -/
def isoWeekStartDay (t : Int) : Int := dayNumber t - (isoDow t - 1)

theorem isoDow_bounds (t : Int) : 1 ≤ isoDow t ∧ isoDow t ≤ 7 := by
  have h := getDay_bounds t
  unfold isoDow
  split_ifs <;> omega

/-- The closure `firstDayOfWeek` both mutates its argument to and returns the
Monday-shifted timestamp. -/
theorem firstDayOfWeek_eq (t : Int) :
    firstDayOfWeek t = (startOfWeekInstant t, startOfWeekInstant t) := by
  unfold firstDayOfWeek startOfWeekInstant isoDow
  by_cases h0 : getDay t = 0
  · rw [if_pos h0, if_neg (by norm_num)]
    simp only []
    rw [setDate_delta]
    ring_nf
  · rw [if_neg h0]
    by_cases h1 : getDay t = 1
    · rw [if_pos h1, h1]
      norm_num
    · rw [if_neg h1]
      simp only []
      rw [setDate_delta]
      ring_nf

instance {ε α : Type} [DecidableEq ε] [DecidableEq α] : DecidableEq (Except ε α) := fun a b =>
  match a, b with
  | Except.error e, Except.error f =>
      if h : e = f then isTrue (h ▸ rfl) else isFalse fun hh => h (by cases hh; rfl)
  | Except.error _, Except.ok _ => isFalse fun hh => Except.noConfusion hh
  | Except.ok _, Except.error _ => isFalse fun hh => Except.noConfusion hh
  | Except.ok x, Except.ok y =>
      if h : x = y then isTrue (h ▸ rfl) else isFalse fun hh => h (by cases hh; rfl)

theorem jsToFixed2_intCast (n : Int) : jsToFixed2 ((n : ℚ)) = (n : ℚ) := by
  unfold jsToFixed2
  rw [show (100 * (n : ℚ) + 1 / 2) = ((200 * n + 1 : Int) : ℚ) / ((2 : ℕ) : ℚ) by
    push_cast; ring]
  rw [Rat.floor_intCast_div_natCast]
  rw [show (200 * n + 1 : Int) / ((2 : ℕ) : Int) = 100 * n by omega]
  push_cast; ring

theorem jsMathRound_div_week (d : Int) :
    jsMathRound ((d : ℚ) / (7 * 24 * 60 * 60 * 1000)) = (2 * d + 604800000) / 1209600000 := by
  unfold jsMathRound
  rw [show ((d : ℚ) / (7 * 24 * 60 * 60 * 1000) + 1 / 2)
        = ((2 * d + 604800000 : Int) : ℚ) / ((1209600000 : ℕ) : ℚ) by push_cast; ring]
  rw [Rat.floor_intCast_div_natCast]
  norm_num

theorem abs_cast_div_swap (x y : Int) (k : ℚ) :
    |((y - x : Int) : ℚ) / k| = |((x - y : Int) : ℚ) / k| := by
  rw [show (y - x : Int) = -(x - y) by ring]
  push_cast
  rw [neg_div, abs_neg]

theorem startOfWeekInstant_decomp (t : Int) :
    startOfWeekInstant t = isoWeekStartDay t * 86400000 + msOfDay t := by
  have hb := isoDow_bounds t
  unfold startOfWeekInstant isoWeekStartDay dayNumber msOfDay
  omega

/-! ## The claims -/

/-- C1: the spec requires that `hasSame`/`hasBefore`/`hasAfter` never mutate the
caller-supplied Instants, but for the `week` unit the `firstDayOfWeek` closure
calls `setDate` on the caller's `Date` objects: at Wednesday 2023-01-04 and
Thursday 2023-01-05 both arguments end up mutated to Monday 2023-01-02
(timestamp 1672617600000), violating the no-mutation requirement. -/
theorem c1_week_comparisons_mutate_inputs :
    hasSameS 1672790400000 1672876800000 "week"
      = Except.ok (true, 1672617600000, 1672617600000) ∧
    hasBeforeS 1672790400000 1672876800000 "week"
      = Except.ok (false, 1672617600000, 1672617600000) ∧
    hasAfterS 1672790400000 1672876800000 "week"
      = Except.ok (false, 1672617600000, 1672617600000) ∧
    (1672617600000 : Int) ≠ 1672790400000 ∧ (1672617600000 : Int) ≠ 1672876800000 := by
  decide

/-- C2 (counterexample): 2023-01-02T00:00 and 2023-01-03T05:00 lie in the same
Monday-to-Sunday ISO week, yet `hasSame(..., 'week')` returns false because the
week normalisation keeps the time of day. -/
theorem c2_same_iso_week_not_hasSame :
    isoWeekStartDay 1672617600000 = isoWeekStartDay 1672722000000 ∧
    hasSameS 1672617600000 1672722000000 "week"
      = Except.ok (false, 1672617600000, 1672635600000) := by
  decide

/-- C2 (amended): `hasSame(a, b, 'week')` returns true iff a and b fall within
the same Monday-to-Sunday ISO week AND have the same time of day; both
arguments are left shifted to the Monday of their week.  `isoWeekStartDay` is
indeed the Monday (weekday 1) starting the 7-day window containing the date. -/
theorem c2_hasSame_week_characterisation (a b : Int) :
    hasSameS a b "week"
      = Except.ok
          (decide (isoWeekStartDay a = isoWeekStartDay b ∧ msOfDay a = msOfDay b),
           startOfWeekInstant a, startOfWeekInstant b) ∧
    (isoWeekStartDay a + 4) % 7 = 1 ∧
    isoWeekStartDay a ≤ dayNumber a ∧ dayNumber a < isoWeekStartDay a + 7 := by
  have hb := isoDow_bounds a
  refine ⟨?_, ?_, ?_, ?_⟩
  · have hred : hasSameS a b "week"
        = Except.ok (decide ((firstDayOfWeek a).2 = (firstDayOfWeek b).2),
            (firstDayOfWeek a).1, (firstDayOfWeek b).1) := rfl
    rw [hred, firstDayOfWeek_eq, firstDayOfWeek_eq]
    have hiff : (startOfWeekInstant a = startOfWeekInstant b)
        ↔ (isoWeekStartDay a = isoWeekStartDay b ∧ msOfDay a = msOfDay b) := by
      rw [startOfWeekInstant_decomp, startOfWeekInstant_decomp]
      unfold msOfDay
      omega
    rw [decide_eq_decide.mpr hiff]
  · unfold isoWeekStartDay isoDow getDay dayNumber
    split_ifs <;> omega
  · unfold isoWeekStartDay isoDow getDay dayNumber
    split_ifs <;> omega
  · unfold isoWeekStartDay isoDow getDay dayNumber
    split_ifs <;> omega

/-- C3 (counterexample): at a delta of exactly two and a half weeks,
`calculateDuration(..., 'week')` is not symmetric: `Math.round` rounds the tie
2.5 up to 3 but -2.5 up to -2, and the absolute value is taken only after
rounding. -/
theorem c3_week_symmetry_fails_at_half_week :
    calculateDuration 0 1512000000 "week" = Except.ok 3 ∧
    calculateDuration 1512000000 0 "week" = Except.ok 2 := by
  constructor
  · have hred : calculateDuration 0 1512000000 "week"
        = Except.ok (jsToFixed2 (weeksBetween 0 1512000000)) := rfl
    rw [hred]
    unfold weeksBetween
    rw [jsMathRound_div_week]
    rw [show ((2 * ((1512000000 : Int) - 0) + 604800000) / 1209600000 : Int) = 3 by decide]
    rw [show |((3 : Int) : ℚ)| = ((3 : Int) : ℚ) by norm_num]
    rw [jsToFixed2_intCast]
    norm_num
  · have hred : calculateDuration 1512000000 0 "week"
        = Except.ok (jsToFixed2 (weeksBetween 1512000000 0)) := rfl
    rw [hred]
    unfold weeksBetween
    rw [jsMathRound_div_week]
    rw [show ((2 * ((0 : Int) - 1512000000) + 604800000) / 1209600000 : Int) = -2 by decide]
    rw [show |((-2 : Int) : ℚ)| = ((2 : Int) : ℚ) by norm_num]
    rw [jsToFixed2_intCast]
    norm_num

/-- C3 (amended): `calculateDuration` is symmetric in its two date arguments
for the six units other than `week` unconditionally, and for `week` whenever
the millisecond delta is not an exact odd multiple of half a week (the
`Math.round` tie case). -/
theorem c3_calculateDuration_symm (u : String)
    (hu : u ∈ (["second", "minute", "hour", "day", "week", "month", "year"] : List String))
    (a b : Int)
    (htie : u = "week" → (b - a) % 604800000 ≠ 302400000) :
    calculateDuration a b u = calculateDuration b a u := by
  fin_cases hu
  · have h : ∀ x y : Int, calculateDuration x y "second"
        = Except.ok (jsToFixed2 (secondsBetween x y)) := fun _ _ => rfl
    rw [h, h]
    unfold secondsBetween
    rw [abs_cast_div_swap]
  · have h : ∀ x y : Int, calculateDuration x y "minute"
        = Except.ok (jsToFixed2 (minutesBetween x y)) := fun _ _ => rfl
    rw [h, h]
    unfold minutesBetween
    rw [abs_cast_div_swap]
  · have h : ∀ x y : Int, calculateDuration x y "hour"
        = Except.ok (jsToFixed2 (hoursBetween x y)) := fun _ _ => rfl
    rw [h, h]
    unfold hoursBetween
    rw [abs_cast_div_swap]
  · have h : ∀ x y : Int, calculateDuration x y "day"
        = Except.ok (jsToFixed2 (daysBetween x y)) := fun _ _ => rfl
    rw [h, h]
    unfold daysBetween
    rw [abs_cast_div_swap]
  · have h : ∀ x y : Int, calculateDuration x y "week"
        = Except.ok (jsToFixed2 (weeksBetween x y)) := fun _ _ => rfl
    rw [h, h]
    have ht := htie rfl
    unfold weeksBetween
    rw [jsMathRound_div_week, jsMathRound_div_week]
    rw [show ((2 * (a - b) + 604800000) / 1209600000 : Int)
          = -((2 * (b - a) + 604800000) / 1209600000) by omega]
    push_cast
    rw [abs_neg]
  · have h : ∀ x y : Int, calculateDuration x y "month"
        = Except.ok (jsToFixed2 (monthsBetween x y)) := fun _ _ => rfl
    rw [h, h]
    unfold monthsBetween
    rw [show ((getFullYear a - getFullYear b) * 12 + (getMonth a - getMonth b) : Int)
          = -((getFullYear b - getFullYear a) * 12 + (getMonth b - getMonth a)) by ring]
    push_cast
    rw [abs_neg]
  · have h : ∀ x y : Int, calculateDuration x y "year"
        = Except.ok (jsToFixed2 (yearsBetween x y)) := fun _ _ => rfl
    rw [h, h]
    unfold yearsBetween
    rw [show (getFullYear a - getFullYear b : Int) = -(getFullYear b - getFullYear a) by ring]
    push_cast
    rw [abs_neg]

theorem c3_calculateDuration_symm_witness :
    ("second" ∈ (["second", "minute", "hour", "day", "week", "month", "year"] : List String)) ∧
    ("second" = "week" → ((3600000 : Int) - 0) % 604800000 ≠ 302400000) ∧
    calculateDuration 0 3600000 "second" = calculateDuration 3600000 0 "second" :=
  ⟨by decide, by decide, c3_calculateDuration_symm "second" (by decide) 0 3600000 (by decide)⟩

/-- C4: any unit outside the closed seven-value set makes `calculateDuration`,
`hasSame`, `hasBefore` and `hasAfter` fail with an unknown-unit error; no
default or fallback unit is substituted and no result is produced. -/
theorem c4_unknown_unit_fails (u : String)
    (h : u ∉ (["second", "minute", "hour", "day", "week", "month", "year"] : List String))
    (a b : Int) :
    calculateDuration a b u = Except.error ("Unknown unit: " ++ u) ∧
    hasSameS a b u = Except.error ("Invalid unit: " ++ u) ∧
    hasBeforeS a b u = Except.error ("Invalid unit: " ++ u) ∧
    hasAfterS a b u = Except.error ("Invalid unit: " ++ u) := by
  simp only [List.mem_cons, List.not_mem_nil, or_false, not_or] at h
  obtain ⟨h1, h2, h3, h4, h5, h6, h7⟩ := h
  refine ⟨?_, ?_, ?_, ?_⟩
  · simp [calculateDuration, unitCalculators, List.lookup,
      beq_eq_false_iff_ne.mpr h1, beq_eq_false_iff_ne.mpr h2, beq_eq_false_iff_ne.mpr h3,
      beq_eq_false_iff_ne.mpr h4, beq_eq_false_iff_ne.mpr h5, beq_eq_false_iff_ne.mpr h6,
      beq_eq_false_iff_ne.mpr h7]
  · simp [hasSameS, h1, h2, h3, h4, h5, h6, h7]
  · simp [hasBeforeS, h1, h2, h3, h4, h5, h6, h7]
  · simp [hasAfterS, h1, h2, h3, h4, h5, h6, h7]

theorem c4_unknown_unit_fails_witness :
    ("century" ∉ (["second", "minute", "hour", "day", "week", "month", "year"] : List String)) ∧
    (calculateDuration 0 0 "century" = Except.error ("Unknown unit: " ++ "century") ∧
     hasSameS 0 0 "century" = Except.error ("Invalid unit: " ++ "century") ∧
     hasBeforeS 0 0 "century" = Except.error ("Invalid unit: " ++ "century") ∧
     hasAfterS 0 0 "century" = Except.error ("Invalid unit: " ++ "century")) :=
  ⟨by decide, c4_unknown_unit_fails "century" (by decide) 0 0⟩

/-- C5: adding then subtracting the same amount of seconds, minutes, hours,
days or weeks returns exactly the original timestamp, for every Instant and
every integer amount. -/
theorem c5_add_subtract_roundtrip (d n : Int) :
    subtractSeconds (addSeconds d n) n = d ∧
    subtractMinutes (addMinutes d n) n = d ∧
    subtractHours (addHours d n) n = d ∧
    subtractDays (addDays d n) n = d ∧
    subtractWeeks (addWeeks d n) n = d := by
  refine ⟨?_, ?_, ?_, ?_, ?_⟩
  · unfold subtractSeconds
    rw [addSeconds_delta, addSeconds_delta]
    ring
  · unfold subtractMinutes
    rw [addMinutes_delta, addMinutes_delta]
    ring
  · unfold subtractHours
    rw [addHours_delta, addHours_delta]
    ring
  · unfold subtractDays
    rw [addDays_delta, addDays_delta]
    ring
  · unfold subtractWeeks addWeeks
    ring

/-- C6: `calculateDuration(..., 'month')` is the absolute value of the year
difference times 12 plus the month difference, computed from calendar fields
only; in particular 2023-01-31 to 2023-02-01 yields 1 month. -/
theorem c6_month_duration_calendar_fields :
    (∀ a b : Int, calculateDuration a b "month"
        = Except.ok (((|(getFullYear b - getFullYear a) * 12
            + (getMonth b - getMonth a)| : Int) : ℚ))) ∧
    calculateDuration 1675123200000 1675209600000 "month" = Except.ok 1 := by
  have key : ∀ a b : Int, calculateDuration a b "month"
      = Except.ok (((|(getFullYear b - getFullYear a) * 12
          + (getMonth b - getMonth a)| : Int) : ℚ)) := by
    intro a b
    have hred : calculateDuration a b "month"
        = Except.ok (jsToFixed2 (monthsBetween a b)) := rfl
    rw [hred]
    unfold monthsBetween
    rw [← Int.cast_abs, jsToFixed2_intCast]
  refine ⟨key, ?_⟩
  rw [key]
  rw [show getFullYear 1675123200000 = 2023 by decide,
      show getFullYear 1675209600000 = 2023 by decide,
      show getMonth 1675123200000 = 0 by decide,
      show getMonth 1675209600000 = 1 by decide]
  norm_num

/-- C7: for second, minute, hour and day the between-function returns the
exact (unrounded) rational quotient of the absolute millisecond delta by the
unit's millisecond count, and `calculateDuration` returns that value rounded
to two decimal places. -/
theorem c7_linear_units_exact_quotient (a b : Int) :
    (secondsBetween a b = |((b - a : Int) : ℚ)| / 1000 ∧
      calculateDuration a b "second"
        = Except.ok ((⌊100 * (|((b - a : Int) : ℚ)| / 1000) + 1 / 2⌋ : ℚ) / 100)) ∧
    (minutesBetween a b = |((b - a : Int) : ℚ)| / 60000 ∧
      calculateDuration a b "minute"
        = Except.ok ((⌊100 * (|((b - a : Int) : ℚ)| / 60000) + 1 / 2⌋ : ℚ) / 100)) ∧
    (hoursBetween a b = |((b - a : Int) : ℚ)| / 3600000 ∧
      calculateDuration a b "hour"
        = Except.ok ((⌊100 * (|((b - a : Int) : ℚ)| / 3600000) + 1 / 2⌋ : ℚ) / 100)) ∧
    (daysBetween a b = |((b - a : Int) : ℚ)| / 86400000 ∧
      calculateDuration a b "day"
        = Except.ok ((⌊100 * (|((b - a : Int) : ℚ)| / 86400000) + 1 / 2⌋ : ℚ) / 100)) := by
  have hsec : secondsBetween a b = |((b - a : Int) : ℚ)| / 1000 := by
    unfold secondsBetween
    rw [abs_div]
    norm_num
  have hmin : minutesBetween a b = |((b - a : Int) : ℚ)| / 60000 := by
    unfold minutesBetween
    rw [abs_div]
    norm_num
  have hhour : hoursBetween a b = |((b - a : Int) : ℚ)| / 3600000 := by
    unfold hoursBetween
    rw [abs_div]
    norm_num
  have hday : daysBetween a b = |((b - a : Int) : ℚ)| / 86400000 := by
    unfold daysBetween
    rw [abs_div]
    norm_num
  refine ⟨⟨hsec, ?_⟩, ⟨hmin, ?_⟩, ⟨hhour, ?_⟩, ⟨hday, ?_⟩⟩
  · have hred : calculateDuration a b "second"
        = Except.ok (jsToFixed2 (secondsBetween a b)) := rfl
    rw [hred, hsec]
    rfl
  · have hred : calculateDuration a b "minute"
        = Except.ok (jsToFixed2 (minutesBetween a b)) := rfl
    rw [hred, hmin]
    rfl
  · have hred : calculateDuration a b "hour"
        = Except.ok (jsToFixed2 (hoursBetween a b)) := rfl
    rw [hred, hhour]
    rfl
  · have hred : calculateDuration a b "day"
        = Except.ok (jsToFixed2 (daysBetween a b)) := rfl
    rw [hred, hday]
    rfl

/-- C8: every `subtract<Unit>` returns exactly `add<Unit>` of the negated
amount, for all seven units. -/
theorem c8_subtract_is_add_neg (d n : Int) :
    subtractSeconds d n = addSeconds d (-n) ∧
    subtractMinutes d n = addMinutes d (-n) ∧
    subtractHours d n = addHours d (-n) ∧
    subtractDays d n = addDays d (-n) ∧
    subtractWeeks d n = addWeeks d (-n) ∧
    subtractMonths d n = addMonths d (-n) ∧
    subtractYears d n = addYears d (-n) :=
  ⟨rfl, rfl, rfl, rfl, rfl, rfl, rfl⟩

/-- C9: for the six field units, `hasSame`/`hasBefore`/`hasAfter` compare the
single calendar field extracted from each date and nothing else; in particular
two dates with the same month-of-year number are "same month" even in
different years. -/
theorem c9_single_field_comparisons (a b : Int) :
    (hasSameS a b "year" = Except.ok (decide (getFullYear a = getFullYear b), a, b) ∧
     hasSameS a b "month" = Except.ok (decide (getMonth a = getMonth b), a, b) ∧
     hasSameS a b "day" = Except.ok (decide (getDate a = getDate b), a, b) ∧
     hasSameS a b "hour" = Except.ok (decide (getHours a = getHours b), a, b) ∧
     hasSameS a b "minute" = Except.ok (decide (getMinutes a = getMinutes b), a, b) ∧
     hasSameS a b "second" = Except.ok (decide (getSeconds a = getSeconds b), a, b)) ∧
    (hasBeforeS a b "year" = Except.ok (decide (getFullYear a < getFullYear b), a, b) ∧
     hasBeforeS a b "month" = Except.ok (decide (getMonth a < getMonth b), a, b) ∧
     hasBeforeS a b "day" = Except.ok (decide (getDate a < getDate b), a, b) ∧
     hasBeforeS a b "hour" = Except.ok (decide (getHours a < getHours b), a, b) ∧
     hasBeforeS a b "minute" = Except.ok (decide (getMinutes a < getMinutes b), a, b) ∧
     hasBeforeS a b "second" = Except.ok (decide (getSeconds a < getSeconds b), a, b)) ∧
    (hasAfterS a b "year" = Except.ok (decide (getFullYear b < getFullYear a), a, b) ∧
     hasAfterS a b "month" = Except.ok (decide (getMonth b < getMonth a), a, b) ∧
     hasAfterS a b "day" = Except.ok (decide (getDate b < getDate a), a, b) ∧
     hasAfterS a b "hour" = Except.ok (decide (getHours b < getHours a), a, b) ∧
     hasAfterS a b "minute" = Except.ok (decide (getMinutes b < getMinutes a), a, b) ∧
     hasAfterS a b "second" = Except.ok (decide (getSeconds b < getSeconds a), a, b)) ∧
    (getMonth a = getMonth b → hasSameS a b "month" = Except.ok (true, a, b)) := by
  refine ⟨⟨rfl, rfl, rfl, rfl, rfl, rfl⟩, ⟨rfl, rfl, rfl, rfl, rfl, rfl⟩,
    ⟨rfl, rfl, rfl, rfl, rfl, rfl⟩, ?_⟩
  intro h
  simp [hasSameS, h]

theorem c9_single_field_comparisons_witness :
    getMonth 1671062400000 = getMonth 1702598400000 ∧
    hasSameS 1671062400000 1702598400000 "month"
      = Except.ok (true, 1671062400000, 1702598400000) :=
  ⟨by decide,
   (c9_single_field_comparisons 1671062400000 1702598400000).2.2.2 (by decide)⟩

/-- C10: for each of the seven known units, `calculateDuration`, `hasSame`,
`hasBefore` and `hasAfter` always return a result and never hit the
unknown-unit error branch. -/
theorem c10_known_units_never_error (u : String)
    (h : u ∈ (["second", "minute", "hour", "day", "week", "month", "year"] : List String))
    (a b : Int) :
    (∃ q, calculateDuration a b u = Except.ok q) ∧
    (∃ r, hasSameS a b u = Except.ok r) ∧
    (∃ r, hasBeforeS a b u = Except.ok r) ∧
    (∃ r, hasAfterS a b u = Except.ok r) := by
  fin_cases h <;> exact ⟨⟨_, rfl⟩, ⟨_, rfl⟩, ⟨_, rfl⟩, ⟨_, rfl⟩⟩

theorem c10_known_units_never_error_witness :
    ("week" ∈ (["second", "minute", "hour", "day", "week", "month", "year"] : List String)) ∧
    ((∃ q, calculateDuration 0 0 "week" = Except.ok q) ∧
     (∃ r, hasSameS 0 0 "week" = Except.ok r) ∧
     (∃ r, hasBeforeS 0 0 "week" = Except.ok r) ∧
     (∃ r, hasAfterS 0 0 "week" = Except.ok r)) :=
  ⟨by decide, c10_known_units_never_error "week" (by decide) 0 0⟩
